import Mathlib

/-!
# Verification of the music-identification server core

Shallow embedding of the repository's server core: the in-memory store
(`MemStorage` in `src/server/storage.ts`), the identification routines
(`identifyMusic` in the several lineages of `src/server/routes.ts` /
`src/server/storage.ts`), and the upload-endpoint handler
(`registerRoutes` in `src/server/routes.ts`).

Conventions of the embedding:
* JavaScript `Date` timestamps are `Nat` (milliseconds).
* Nullable / possibly-`undefined` fields are `Option`.
* JS truthiness on strings is modelled exactly: `null`/`undefined` and the
  empty string are falsy.
* `randomUUID()` and `new Date()` are nondeterministic; the operations take
  the generated id and the current time as explicit arguments.
* A JS `Map` is an association list in insertion order: `set` replaces an
  existing key in place, otherwise appends; `values()` iterates in that order.
-/

/-- JS truthiness of a nullable string: `null`/`undefined` and `""` are falsy. -/
def jsTruthyStr : Option String → Bool
  | none => false
  | some s => !(s == "")

/-- JS `v || d` on a nullable string (falsy `v`, including `""`, yields `d`). -/
def jsOrStr (v : Option String) (d : String) : String :=
  match v with
  | none => d
  | some s => if s == "" then d else s

/-- JS `v || null` on a nullable string. -/
def jsOrNullStr (v : Option String) : Option String :=
  if jsTruthyStr v then v else none

/-- JS `v || d` on a nullable number (falsy `v`, i.e. `0`/`null`/`undefined`,
yields `d`). -/
def jsOrNat (v : Option Nat) (d : Nat) : Nat :=
  match v with
  | none => d
  | some n => if n == 0 then d else n

/-! ## Data model (`src/shared/schema.ts`) -/

/-- Caller-supplied fields of a song row (`InsertSong`: the `songs` columns
minus the server-assigned `id` and `createdAt`). -/
structure InsertSong where
  title : String
  artist : String
  album : Option String := none
  year : Option Int := none
  genre : Option String := none
  duration : Option String := none
  spotifyUrl : Option String := none
  youtubeUrl : Option String := none
  albumArt : Option String := none
deriving Repr, DecidableEq

/-- A stored song row (`Song`): the insert fields plus the server-assigned
`id` and `createdAt`, as built by `createSong`'s spread. -/
structure Song extends InsertSong where
  id : String
  createdAt : Nat
deriving Repr, DecidableEq

/-- Caller-supplied fields of an identification row (`InsertIdentification`). -/
structure InsertIdentification where
  songId : Option String := none
  filename : String
  confidence : Nat
deriving Repr, DecidableEq

/-- A stored identification row (`Identification`). -/
structure Identification extends InsertIdentification where
  id : String
  createdAt : Nat
deriving Repr, DecidableEq

/-- `IdentificationResult = Identification & { song: Song }`: an
identification joined with its referenced song, built on read. -/
structure IdentificationResult extends Identification where
  song : Song
deriving Repr, DecidableEq

/-! ## JS `Map` as an insertion-ordered association list -/

/-- `Map.set`: replace the value of an existing key in place, otherwise
append the new entry (JS `Map` keeps insertion order). -/
def mapSet {α : Type} : List (String × α) → String → α → List (String × α)
  | [], k, v => [(k, v)]
  | (k', v') :: rest, k, v =>
    if k' = k then (k, v) :: rest else (k', v') :: mapSet rest k v

/-- `Map.get`: value of the first entry with the given key. -/
def mapGet {α : Type} : List (String × α) → String → Option α
  | [], _ => none
  | (k', v') :: rest, k => if k' = k then some v' else mapGet rest k

theorem mapGet_mapSet_self {α : Type} (m : List (String × α)) (k : String) (v : α) :
    mapGet (mapSet m k v) k = some v := by
  induction m with
  | nil => simp [mapSet, mapGet]
  | cons p rest ih =>
    by_cases h : p.1 = k
    · simp [mapSet, mapGet, h]
    · simpa [mapSet, mapGet, h] using ih

theorem mapGet_mapSet_ne {α : Type} (m : List (String × α)) (k k' : String) (v : α)
    (h : k' ≠ k) : mapGet (mapSet m k v) k' = mapGet m k' := by
  induction m with
  | nil => simp [mapSet, mapGet, Ne.symm h]
  | cons p rest ih =>
    obtain ⟨pk, pv⟩ := p
    by_cases hp : pk = k
    · subst hp
      simp [mapSet, mapGet, Ne.symm h]
    · simp only [mapSet, if_neg hp, mapGet]
      by_cases hp' : pk = k' <;> simp [hp', ih]

/-- If a key resolves in the list, the entry is a member of the list. -/
theorem mem_of_mapGet_eq_some {α : Type} {m : List (String × α)} {k : String} {v : α}
    (h : mapGet m k = some v) : (k, v) ∈ m := by
  induction m with
  | nil => simp [mapGet] at h
  | cons p rest ih =>
    obtain ⟨pk, pv⟩ := p
    by_cases hp : pk = k
    · subst hp
      simp only [mapGet, if_pos rfl] at h
      injection h with h
      subst h
      exact List.mem_cons_self _ _
    · simp only [mapGet, if_neg hp] at h
      exact List.mem_cons_of_mem _ (ih h)

/-! ## The store (`MemStorage` in `src/server/storage.ts`) -/

/-- The in-memory store: the two private `Map`s of `MemStorage`. -/
structure MemStorage where
  songs : List (String × Song)
  identifications : List (String × Identification)
deriving Repr, DecidableEq

/-- `new MemStorage()`. -/
def emptyStorage : MemStorage := { songs := [], identifications := [] }

/-- `createSong`: spread the insert fields, assign the generated `id` and the
current time, store under `id`, and return the record. -/
def MemStorage.createSong (s : MemStorage) (id : String) (now : Nat)
    (ins : InsertSong) : Song × MemStorage :=
  let song : Song := { toInsertSong := ins, id := id, createdAt := now }
  (song, { s with songs := mapSet s.songs id song })

/-- `getSong`: lookup by id. -/
def MemStorage.getSong (s : MemStorage) (id : String) : Option Song :=
  mapGet s.songs id

/-- `createIdentification`: spread, assign `id`/`createdAt`, store, return. -/
def MemStorage.createIdentification (s : MemStorage) (id : String) (now : Nat)
    (ins : InsertIdentification) : Identification × MemStorage :=
  let ident : Identification := { toInsertIdentification := ins, id := id, createdAt := now }
  (ident, { s with identifications := mapSet s.identifications id ident })

/-- The join step shared by `getIdentificationWithSong` and the loop body of
`getRecentIdentifications`: `undefined` unless the identification has a truthy
`songId` (JS `!identification.songId`, so `""` also fails) that resolves to an
existing song; otherwise the identification spread together with the song. -/
def joinSong (s : MemStorage) (ident : Identification) : Option IdentificationResult :=
  match ident.songId with
  | none => none
  | some sid =>
    if sid = "" then none
    else (s.getSong sid).map (fun song => { toIdentification := ident, song := song })

/-- `getIdentificationWithSong`: lookup, then the join step. -/
def MemStorage.getIdentificationWithSong (s : MemStorage) (id : String) :
    Option IdentificationResult :=
  (mapGet s.identifications id).bind (joinSong s)

/-- The comparator `(a, b) => b.createdAt - a.createdAt` as a relation:
descending by creation time. -/
def byCreatedAtDesc (a b : Identification) : Prop := b.createdAt ≤ a.createdAt

instance : DecidableRel byCreatedAtDesc := fun _ _ => Nat.decLe _ _

instance : IsTotal Identification byCreatedAtDesc :=
  ⟨fun a b => Nat.le_total b.createdAt a.createdAt⟩

instance : IsTrans Identification byCreatedAtDesc :=
  ⟨fun _ _ _ h1 h2 => Nat.le_trans h2 h1⟩

/-- `getRecentIdentifications`: sort all identification values descending by
`createdAt` (JS `Array.prototype.sort` is stable; `List.insertionSort` with
this comparator is the same stable sort), `slice(0, limit)`, then keep, in
order, those whose `songId` resolves, joined with their song. -/
def MemStorage.getRecentIdentifications (s : MemStorage) (limit : Nat := 10) :
    List IdentificationResult :=
  ((List.insertionSort byCreatedAtDesc (s.identifications.map Prod.snd)).take limit).filterMap
    (joinSong s)

/-! ## Identification routines (`identifyMusic`, three lineages)

An `identifyMusic` routine returns either
`{ status: "success", metadata: { music: [entry] } }` or an error-status
object; the single `metadata.music[0]` entry is `MusicData`.  Network calls
and JSON parsing are external, so each provider attempt is modelled by its
outcome; the deterministic control flow around the attempts is translated
from the source. -/

/-- The shape of `metadata.music[0]` as the route handler consumes it:
`title`, `artists?.[0]?.name`, `album?.name`, `release_date`, `score`, and
`external_metadata?.spotify?.track?.id`. -/
structure MusicData where
  title : Option String
  artistName : Option String
  albumName : Option String
  release_date : Option String
  score : Option Nat
  spotifyTrackId : Option String
deriving Repr, DecidableEq

/-- The result object of an `identifyMusic` routine: success with one music
entry, or an error status with a message. -/
inductive IdentifyOutcome where
  | success (music : MusicData)
  | error (message : String)
deriving Repr, DecidableEq

/-- The score of the music entry of an outcome, if any. -/
def IdentifyOutcome.scoreOf : IdentifyOutcome → Option Nat
  | IdentifyOutcome.success m => m.score
  | IdentifyOutcome.error _ => none

/-- The error message returned when all APIs fail in the RapidAPI lineage of
`src/server/routes.ts`. -/
def rapidErrorMessage : String :=
  "Could not identify the song. All music identification services are currently unavailable or returned no results."

/-- First successful provider attempt, in order (the `for (const api of apis)`
loop: a failed fetch, non-2xx response, or a processor returning `null` all
fall through to the next provider). -/
def firstAttemptSuccess : List (Option MusicData) → Option MusicData
  | [] => none
  | none :: rest => firstAttemptSuccess rest
  | some m :: _ => some m

/-- The RapidAPI lineage of `identifyMusic` (`src/server/routes.ts`, the
variant guarded by `process.env.RAPIDAPI_KEY`): with a key, try the three
providers in order and return the first success; without a key, or when every
attempt fails, return the error-status result.  Each provider attempt
(network + response parsing) is given by its outcome in `attempts`. -/
def identifyMusicRapid (hasKey : Bool) (attempts : List (Option MusicData)) :
    IdentifyOutcome :=
  if hasKey then
    match firstAttemptSuccess attempts with
    | some m => IdentifyOutcome.success m
    | none => IdentifyOutcome.error rapidErrorMessage
  else IdentifyOutcome.error rapidErrorMessage

/-- The fields of `result.result` that the AudioTag lineage reads from a
successful AudioTag response. -/
structure AudioTagTrack where
  title : Option String
  artist : Option String
  album : Option String
  year : Option String
  confidence : Option Nat
  spotify_id : Option String
deriving Repr, DecidableEq

/-- The fixed demo track returned by the AudioTag lineage's `catch` block
("Blinding Lights", score 95). -/
def audioTagDemoTrack : MusicData :=
  { title := some "Blinding Lights"
    artistName := some "The Weeknd"
    albumName := some "After Hours"
    release_date := some "2019-11-29"
    score := some 95
    spotifyTrackId := some "0VjIjW4GlULA1OgON3MzNs" }

/-- The AudioTag lineage of `identifyMusic` (second document of
`src/server/storage.ts`): on a successful AudioTag response (`response.ok`
and `result.success && result.result`), transform the track; on any failure
(fetch rejection, non-2xx, or a no-result body, all of which `throw` into the
`catch`), return the fixed demo track.  `apiResult` is the outcome of the
external call. -/
def identifyMusicAudioTag (apiResult : Except String AudioTagTrack) :
    IdentifyOutcome :=
  match apiResult with
  | Except.ok t =>
    IdentifyOutcome.success
      { title := some (jsOrStr t.title "Unknown Title")
        artistName := some (jsOrStr t.artist "Unknown Artist")
        albumName := jsOrNullStr t.album
        release_date := jsOrNullStr t.year
        score := some (jsOrNat t.confidence 85)
        spotifyTrackId := if jsTruthyStr t.spotify_id then t.spotify_id else none }
  | Except.error _ => IdentifyOutcome.success audioTagDemoTrack

/-- The five fixed "guessed genre" placeholder suggestions of the Shazam
lineage's last-resort heuristic path (scores 45, 65, 60, 55, 70). -/
def heuristicSuggestions : List MusicData :=
  [ { title := some "Unknown Song", artistName := some "Unknown Artist"
      albumName := some "Could not identify", release_date := none
      score := some 45, spotifyTrackId := none }
  , { title := some "Possible Pop Song", artistName := some "Popular Artist"
      albumName := some "Detected: High Quality Audio", release_date := some "2020-01-01"
      score := some 65, spotifyTrackId := none }
  , { title := some "Possible Rock Song", artistName := some "Rock Band"
      albumName := some "Detected: Dynamic Range", release_date := some "2018-01-01"
      score := some 60, spotifyTrackId := none }
  , { title := some "Possible Classical", artistName := some "Orchestra"
      albumName := some "Detected: Short Duration", release_date := some "2015-01-01"
      score := some 55, spotifyTrackId := none }
  , { title := some "Possible Electronic", artistName := some "DJ/Producer"
      albumName := some "Detected: Electronic Patterns", release_date := some "2022-01-01"
      score := some 70, spotifyTrackId := none } ]

/-- The sequentially reassigned `songChoice` index of the heuristic path:
`0`, overridden in turn by the size, mean-byte and hash conditions. -/
def songChoice (fileSize : Nat) (avgByteGt128 : Bool) (hashHex : String) : Nat :=
  let c := 0
  let c := if fileSize > 5000000 then 1 else c
  let c := if avgByteGt128 then 2 else c
  let c := if fileSize < 2000000 then 3 else c
  if hashHex.contains 'a' || hashHex.contains 'b' then 4 else c

/-- Sum of the bytes of a buffer (`audioBuffer.reduce((sum, byte) => sum + byte, 0)`). -/
def bufSum (buf : List Nat) : Nat := buf.foldl (· + ·) 0

/-- The last-resort heuristic path of the Shazam lineage of `identifyMusic`
(second document of `src/server/routes.ts`): pick one of the five fixed
suggestions from the buffer's size, its mean byte value (`avgByte > 128` is
`bufSum > 128 * length`, exactly, since `avgByte` is the exact quotient) and
the hex MD5 content hash (the external digest is the `md5hex` argument), and
return it as a success result.  The `getD` default is never reached:
`songChoice` is always `< 5`. -/
def identifyMusicShazamFallback (buf : List Nat) (md5hex : String) : IdentifyOutcome :=
  let fileSize := buf.length
  let avgByteGt128 : Bool := 128 * fileSize < bufSum buf
  IdentifyOutcome.success
    (heuristicSuggestions.getD (songChoice fileSize avgByteGt128 md5hex)
      { title := none, artistName := none, albumName := none
        release_date := none, score := none, spotifyTrackId := none })

/-! ## The upload endpoint handler (`registerRoutes` in `src/server/routes.ts`) -/

/-- The fields of `req.file` that the handler reads. -/
structure UploadedFile where
  path : String
  originalname : String
  mimetype : String
  size : Nat
deriving Repr, DecidableEq

/-- The HTTP response sent by the `/api/identify` handler. -/
inductive Response where
  | ok (result : Option IdentificationResult)
  | badRequest (message : String)
  | notFound (message : String) (error : String)
  | serverError (message : String) (error : String)
deriving Repr, DecidableEq

/-- The 404 body of the no-match branch. -/
def notFoundResponse : Response :=
  Response.notFound "Song not identified"
    "No match found in database. Try uploading a popular song with clear audio quality."

/-- Numeric value of the leading run of digit characters. -/
def leadingDigitsVal : List Char → Nat → Nat
  | [], acc => acc
  | c :: rest, acc =>
    if c.isDigit then leadingDigitsVal rest (acc * 10 + (c.toNat - 48)) else acc

/-- Year component of a release-date string: this models
`new Date(s).getFullYear()` for the ISO-format (`YYYY-MM-DD` or `YYYY`)
release dates the providers produce, evaluated on a UTC-clock server —
the leading year field of the string. -/
def releaseDateYear (s : String) : Int :=
  Int.ofNat (leadingDigitsVal s.data 0)

/-- The `songData` object the handler builds from `musicData`
(`src/server/routes.ts`, the "Create song record" block): JS `||` defaults
for title/artist/album, the year parsed from a truthy `release_date`, and the
Spotify URL built from a truthy Spotify track id. -/
def mkSongData (m : MusicData) : InsertSong :=
  { title := jsOrStr m.title "Unknown Title"
    artist := jsOrStr m.artistName "Unknown Artist"
    album := jsOrNullStr m.albumName
    year := if jsTruthyStr m.release_date
      then some (releaseDateYear (m.release_date.getD "")) else none
    genre := none
    duration := none
    spotifyUrl := if jsTruthyStr m.spotifyTrackId
      then some ("https://open.spotify.com/track/" ++ m.spotifyTrackId.getD "") else none
    youtubeUrl := none
    albumArt := none }

/-- The `InsertIdentification` the handler persists on success: the created
song's id, the original filename, and `musicData.score || 95`. -/
def successInsertIdentification (m : MusicData) (songId : String)
    (filename : String) : InsertIdentification :=
  { songId := some songId, filename := filename, confidence := jsOrNat m.score 95 }

/-- External/nondeterministic inputs of one handler invocation: the outcome
of `fs.readFileSync`, the settled value of `identifyMusic(audioBuffer)`, the
two generated UUIDs and the clock. -/
structure HandlerEnv where
  readResult : Except String (List Nat)
  identifyResult : IdentifyOutcome
  songUUID : String
  identUUID : String
  now : Nat

/-- The `/api/identify` handler body.  Returns the response, the store after
the invocation, whether the temporary uploaded file still exists on disk
afterwards, and whether `identifyMusic` was invoked.

Control flow translated from the source: the `finally { fs.unlinkSync(...) }`
guards only the inner `try`, so a `readFileSync` exception propagates to the
outer `catch` (500) without deleting the file; the 404 and success branches
return out of the inner `try` and therefore do run the `finally`. -/
def handleIdentify (reqFile : Option UploadedFile) (env : HandlerEnv)
    (s : MemStorage) : Response × MemStorage × Bool × Bool :=
  match reqFile with
  | none => (Response.badRequest "No audio file provided", s, false, false)
  | some f =>
    match env.readResult with
    | Except.error e => (Response.serverError "Identification failed" e, s, true, false)
    | Except.ok _buf =>
      match env.identifyResult with
      | IdentifyOutcome.error _ => (notFoundResponse, s, false, true)
      | IdentifyOutcome.success m =>
        let p1 := s.createSong env.songUUID env.now (mkSongData m)
        let p2 := p1.2.createIdentification env.identUUID env.now
          (successInsertIdentification m p1.1.id f.originalname)
        (Response.ok (p2.2.getIdentificationWithSong p2.1.id), p2.2, false, true)

/-- `10 * 1024 * 1024`, the Multer `fileSize` limit. -/
def FILE_SIZE_LIMIT : Nat := 10 * 1024 * 1024

/-- The Multer `fileFilter` predicate: `file.mimetype.startsWith("audio/")`,
expressed on the character lists (the same function, stated so that it
evaluates by kernel reduction). -/
def fileFilterAccepts (mimetype : String) : Bool :=
  "audio/".data.isPrefixOf mimetype.data

/-- Whether the Multer middleware accepts the upload: the MIME-prefix filter
plus the 10 MiB size limit. -/
def multerAccepts (f : UploadedFile) : Bool :=
  fileFilterAccepts f.mimetype && decide (f.size ≤ FILE_SIZE_LIMIT)

/-- Modelled from the spec: the upload middleware pipeline around the route
handler.  The Express error middleware that turns a Multer rejection into an
HTTP response lives in the server entry file, which is not under `src/`; per
spec section 4.3 a rejected upload (oversized or non-`audio/*`) yields a 400
client-error response without reaching the handler, so no temporary file
remains, no provider is invoked and the store is untouched. -/
def uploadPipeline (s : MemStorage) (f : UploadedFile) (env : HandlerEnv) :
    Response × MemStorage × Bool × Bool :=
  if multerAccepts f then handleIdentify (some f) env s
  else (Response.badRequest "Only audio files are allowed", s, false, false)

/-! ## Concrete stores used by individual claims -/

def c9SongA : Song := { title := "First", artist := "Alpha", id := "sA", createdAt := 1 }

def c9SongB : Song := { title := "Second", artist := "Beta", id := "sB", createdAt := 2 }

def c9Ident1 : Identification :=
  { songId := some "sA", filename := "one.mp3", confidence := 90, id := "i1", createdAt := 1 }

def c9Ident2 : Identification :=
  { songId := some "sB", filename := "two.mp3", confidence := 85, id := "i2", createdAt := 2 }

/-- An identification whose `songId` does not resolve (no song `"missing"`). -/
def c9Ident3 : Identification :=
  { songId := some "missing", filename := "three.mp3", confidence := 80, id := "i3", createdAt := 3 }

def c9Store : MemStorage :=
  { songs := [("sA", c9SongA), ("sB", c9SongB)]
    identifications := [("i1", c9Ident1), ("i2", c9Ident2), ("i3", c9Ident3)] }

/-- Number of identifications in the store whose song resolves. -/
def resolvableIdentCount (s : MemStorage) : Nat :=
  (s.identifications.filter (fun p => (joinSong s p.2).isSome)).length

/-- C1 counterexample: in the RapidAPI lineage of `identifyMusic` (the one at
`src/server/routes.ts` lines 24-152), a call with no API credentials returns
the error-status result — not the placeholder — and its music entry/confidence
is absent. -/
theorem C1_counterexample :
    identifyMusicRapid false [] = IdentifyOutcome.error rapidErrorMessage ∧
    (identifyMusicRapid false []).scoreOf = none := ⟨rfl, rfl⟩

/-- C1 (amended): with no credentials the RapidAPI-lineage `identifyMusic`
returns, without raising, an error-status result (whatever the provider
attempts would have been); the AudioTag-lineage `identifyMusic` returns the
fixed demo placeholder with populated score `95 ≤ 100` whenever the AudioTag
call fails, and never raises. -/
theorem C1_amended_thm (attempts : List (Option MusicData)) (e : String) :
    identifyMusicRapid false attempts = IdentifyOutcome.error rapidErrorMessage ∧
    identifyMusicAudioTag (Except.error e) = IdentifyOutcome.success audioTagDemoTrack ∧
    (identifyMusicAudioTag (Except.error e)).scoreOf = some 95 ∧ 95 ≤ 100 :=
  ⟨rfl, rfl, rfl, by decide⟩

def c4File : UploadedFile :=
  { path := "uploads/3f2cafe1", originalname := "clip.mp3", mimetype := "audio/mpeg", size := 2048 }

def c4Env : HandlerEnv :=
  { readResult := Except.error "EACCES: permission denied, open uploads/3f2cafe1"
    identifyResult := IdentifyOutcome.error rapidErrorMessage
    songUUID := "c4-song-uuid", identUUID := "c4-ident-uuid", now := 1700000000000 }

/-- C4: evaluating the upload handler at the failing input — a received file
whose `fs.readFileSync` throws — shows the handler answers 500 and the
temporary file still exists afterwards (third component `true`): the
`finally { unlinkSync }` guards only the inner `try`, so this exit path never
deletes the file, contradicting the every-exit-path cleanup guarantee. -/
theorem C4_eval :
    handleIdentify (some c4File) c4Env emptyStorage =
      (Response.serverError "Identification failed"
          "EACCES: permission denied, open uploads/3f2cafe1",
        emptyStorage, true, false) := rfl

/-- The sequential `songChoice` overrides always land in `{0, 1, 2, 3, 4}`. -/
theorem songChoice_lt_five (fileSize : Nat) (avg : Bool) (hashHex : String) :
    songChoice fileSize avg hashHex < 5 := by
  dsimp only [songChoice]
  split_ifs <;> omega

/-- C5: every result the last-resort heuristic path can return has a
populated score of at most 70 — each of the five fixed suggestions
`songChoice` can select scores 45, 65, 60, 55 or 70. -/
theorem C5_thm (buf : List Nat) (md5hex : String) :
    (identifyMusicShazamFallback buf md5hex).scoreOf ≠ none ∧
    ((identifyMusicShazamFallback buf md5hex).scoreOf).getD 0 ≤ 70 := by
  dsimp only [identifyMusicShazamFallback, IdentifyOutcome.scoreOf]
  generalize hc : songChoice buf.length _ md5hex = c
  have h5 : c < 5 := hc ▸ songChoice_lt_five _ _ _
  interval_cases c <;> simp [heuristicSuggestions]

/-- C9: truncation precedes the song-resolution filter in
`getRecentIdentifications`: a store with two resolvable identifications (and
a newer unresolvable one occupying a slot among the first two) yields only
one entry for `limit = 2`. -/
theorem C9_thm :
    (c9Store.getRecentIdentifications 2).length = 1 ∧
    2 ≤ resolvableIdentCount c9Store ∧
    (c9Store.getRecentIdentifications 2).map (fun r => r.id) = ["i2"] := by
  refine ⟨by decide, by decide, by decide⟩

/-! ## C2: `getRecentIdentifications` contract -/

/-- Whether a returned entry is properly joined in store `s`: its `songId` is
present, non-empty, and resolves to exactly the entry's `song`. -/
def resolvesIn (s : MemStorage) (r : IdentificationResult) : Bool :=
  match r.songId with
  | none => false
  | some sid =>
    if sid = "" then false
    else match s.getSong sid with
      | none => false
      | some song => decide (song = r.song)

/-- Anything `joinSong` emits is properly joined and keeps its identification's
creation time. -/
theorem joinSong_resolves {s : MemStorage} {i : Identification}
    {r : IdentificationResult} (h : joinSong s i = some r) :
    resolvesIn s r = true ∧ r.createdAt = i.createdAt := by
  unfold joinSong at h
  cases hs : i.songId with
  | none => simp [hs] at h
  | some sid =>
    rw [hs] at h
    dsimp only at h
    by_cases he : sid = ""
    · simp [he] at h
    · rw [if_neg he] at h
      cases hg : s.getSong sid with
      | none => simp [hg] at h
      | some song =>
        rw [hg, Option.map_some'] at h
        injection h with h
        subst h
        refine ⟨?_, rfl⟩
        simp [resolvesIn, hs, he, hg]

/-- The song-resolution filter only emits properly joined entries. -/
theorem filterMap_joinSong_all_resolves (s : MemStorage) :
    ∀ l : List Identification, (l.filterMap (joinSong s)).all (resolvesIn s) = true := by
  intro l
  induction l with
  | nil => rfl
  | cons i rest ih =>
    cases h : joinSong s i with
    | none => simpa [List.filterMap_cons, h] using ih
    | some r =>
      simp [List.filterMap_cons, h, (joinSong_resolves h).1, ih]

def c2SongA : Song := { title := "First", artist := "Alpha", id := "sA", createdAt := 5 }

def c2SongB : Song := { title := "Second", artist := "Beta", id := "sB", createdAt := 5 }

def c2Ident1 : Identification :=
  { songId := some "sA", filename := "one.mp3", confidence := 90, id := "i1", createdAt := 5 }

/-- Created in the same millisecond as `c2Ident1` (`new Date()` ties). -/
def c2Ident2 : Identification :=
  { songId := some "sB", filename := "two.mp3", confidence := 85, id := "i2", createdAt := 5 }

def c2Store : MemStorage :=
  { songs := [("sA", c2SongA), ("sB", c2SongB)]
    identifications := [("i1", c2Ident1), ("i2", c2Ident2)] }

/-- C2 counterexample: with two identifications created in the same
millisecond (equal `createdAt`, as two uploads in one millisecond produce),
both with resolvable songs, the returned list is not *strictly* descending in
`createdAt` — the comparator sort leaves the tie in place. -/
theorem C2_counterexample :
    (c2Store.getRecentIdentifications 10).length = 2 ∧
    ¬ (c2Store.getRecentIdentifications 10).Pairwise
        (fun a b => b.createdAt < a.createdAt) := by
  refine ⟨by decide, by decide⟩

/-- C2 (amended): for every limit and store state,
`getRecentIdentifications limit` returns at most `limit` entries, sorted by
non-increasing `createdAt` (descending, with ties possible when two
identifications share a creation timestamp), each joined with its referenced
song; no returned entry has an absent, null, empty or dangling `songId`. -/
theorem C2_amended_thm (s : MemStorage) (limit : Nat) :
    (s.getRecentIdentifications limit).length ≤ limit ∧
    (s.getRecentIdentifications limit).Pairwise
      (fun a b => b.createdAt ≤ a.createdAt) ∧
    (s.getRecentIdentifications limit).all (resolvesIn s) = true := by
  refine ⟨?_, ?_, filterMap_joinSong_all_resolves s _⟩
  · calc (s.getRecentIdentifications limit).length
        ≤ ((List.insertionSort byCreatedAtDesc
            (s.identifications.map Prod.snd)).take limit).length :=
          List.length_filterMap_le _ _
      _ ≤ limit := List.length_take_le _ _
  · have hsorted : ((List.insertionSort byCreatedAtDesc
        (s.identifications.map Prod.snd)).take limit).Pairwise byCreatedAtDesc :=
      List.Pairwise.sublist (List.take_sublist _ _)
        (List.sorted_insertionSort byCreatedAtDesc _)
    refine List.Pairwise.filterMap (joinSong s) ?_ hsorted
    intro a a' hr b hb b' hb'
    have h1 := (joinSong_resolves (Option.mem_def.mp hb)).2
    have h2 := (joinSong_resolves (Option.mem_def.mp hb')).2
    rw [h1, h2]
    exact hr

/-! ## C3: `getIdentificationWithSong` not-found conditions -/

/-- Generated-id well-formedness: every stored identification's `songId`, when
set, is non-empty.  This holds of every store the system builds, because a
`songId` is always the `id` of a created song, i.e. a `randomUUID()` value
(spec: "identity = generated unique id"), which is never the empty string. -/
def wfStore (s : MemStorage) : Bool :=
  s.identifications.all (fun p =>
    match p.2.songId with
    | none => true
    | some sid => sid != "")

/-- An operation that mutates the store (the only two mutators). -/
inductive StoreOp where
  | createSong (id : String) (now : Nat) (ins : InsertSong)
  | createIdentification (id : String) (now : Nat) (ins : InsertIdentification)

/-- Apply one mutator, keeping only the resulting store. -/
def applyOp (s : MemStorage) : StoreOp → MemStorage
  | StoreOp.createSong id now ins => (s.createSong id now ins).2
  | StoreOp.createIdentification id now ins => (s.createIdentification id now ins).2

/-- Run a sequence of mutators. -/
def runOps (s : MemStorage) (ops : List StoreOp) : MemStorage :=
  ops.foldl applyOp s

/-- The ids returned by the `createIdentification` calls of a trace (each call
returns the record carrying exactly the generated id it stored under). -/
def identIdsCreated : List StoreOp → List String
  | [] => []
  | StoreOp.createIdentification id _ _ :: rest => id :: identIdsCreated rest
  | StoreOp.createSong _ _ _ :: rest => identIdsCreated rest

/-- Ids never created by the trace stay absent from the identifications map. -/
theorem mapGet_runOps_identifications_eq_none (ops : List StoreOp) :
    ∀ (s : MemStorage) (id : String), id ∉ identIdsCreated ops →
      mapGet s.identifications id = none →
      mapGet (runOps s ops).identifications id = none := by
  induction ops with
  | nil => intro s id _ h0; exact h0
  | cons op rest ih =>
    intro s id hnot h0
    cases op with
    | createSong sid now ins =>
      refine ih _ _ (by simpa [identIdsCreated] using hnot) ?_
      simpa [applyOp, MemStorage.createSong] using h0
    | createIdentification iid now ins =>
      have hne : id ≠ iid := by
        intro hh
        exact hnot (by simp [identIdsCreated, hh])
      refine ih _ _ (fun hmem => hnot (by simp [identIdsCreated, hmem])) ?_
      simpa [applyOp, MemStorage.createIdentification,
        mapGet_mapSet_ne _ _ _ _ hne] using h0

/-- Unfolding step: a resolved lookup reduces `getIdentificationWithSong` to
the join step. -/
theorem getIdentificationWithSong_eq_joinSong {s : MemStorage} {id : String}
    {ident : Identification} (hm : mapGet s.identifications id = some ident) :
    s.getIdentificationWithSong id = joinSong s ident := by
  unfold MemStorage.getIdentificationWithSong
  rw [hm]
  rfl

/-- The join step on a null/absent `songId`. -/
theorem joinSong_of_songId_none {s : MemStorage} {i : Identification}
    (h : i.songId = none) : joinSong s i = none := by
  unfold joinSong
  rw [h]

/-- The join step on a set, non-empty `songId`. -/
theorem joinSong_of_songId_some {s : MemStorage} {i : Identification} {sid : String}
    (h : i.songId = some sid) (hne : sid ≠ "") :
    joinSong s i =
      (s.getSong sid).map (fun song => { toIdentification := i, song := song }) := by
  unfold joinSong
  rw [h]
  dsimp only
  rw [if_neg hne]

/-- C3: over well-formed stores (generated, hence non-empty, song ids),
`getIdentificationWithSong id` is not-found exactly when the identification
does not exist, or exists with a null/absent `songId`, or its `songId`
resolves to no song; and over any trace of store operations starting from the
empty store, any id never returned by `createIdentification` is not-found. -/
theorem C3_thm (s : MemStorage) (id : String) (h : wfStore s = true)
    (ops : List StoreOp) (id2 : String) (h2 : id2 ∉ identIdsCreated ops) :
    (s.getIdentificationWithSong id = none ↔
      (mapGet s.identifications id = none ∨
       (∃ ident, mapGet s.identifications id = some ident ∧ ident.songId = none) ∨
       (∃ ident sid, mapGet s.identifications id = some ident ∧
          ident.songId = some sid ∧ s.getSong sid = none))) ∧
    (runOps emptyStorage ops).getIdentificationWithSong id2 = none := by
  constructor
  · cases hm : mapGet s.identifications id with
    | none => simp [MemStorage.getIdentificationWithSong, hm]
    | some ident =>
      have hmem := mem_of_mapGet_eq_some hm
      have hwf := List.all_eq_true.mp h _ hmem
      rw [getIdentificationWithSong_eq_joinSong hm]
      cases hsid : ident.songId with
      | none =>
        refine iff_of_true (joinSong_of_songId_none hsid) ?_
        exact Or.inr (Or.inl ⟨ident, rfl, hsid⟩)
      | some sid =>
        have hne : sid ≠ "" := by
          rw [hsid] at hwf
          simpa using hwf
        rw [joinSong_of_songId_some hsid hne]
        cases hg : s.getSong sid with
        | none =>
          refine iff_of_true (by rw [Option.map_none']) ?_
          exact Or.inr (Or.inr ⟨ident, sid, rfl, hsid, hg⟩)
        | some song =>
          rw [Option.map_some']
          refine iff_of_false (by simp) ?_
          rintro (hc | ⟨i', hi', hnone⟩ | ⟨i', sid', hi', hsid', hgnone⟩)
          · exact absurd hc (Option.some_ne_none _)
          · injection hi' with hi'
            subst hi'
            rw [hsid] at hnone
            exact absurd hnone (Option.some_ne_none _)
          · injection hi' with hi'
            subst hi'
            rw [hsid] at hsid'
            injection hsid' with hsid'
            subst hsid'
            rw [hg] at hgnone
            exact absurd hgnone (Option.some_ne_none _)
  · have habsent : mapGet (runOps emptyStorage ops).identifications id2 = none :=
      mapGet_runOps_identifications_eq_none ops emptyStorage id2 h2 rfl
    simp [MemStorage.getIdentificationWithSong, habsent]

def c3Song : Song := { title := "Track", artist := "Band", id := "sX", createdAt := 7 }

def c3Ident : Identification :=
  { songId := some "sX", filename := "x.mp3", confidence := 88, id := "iX", createdAt := 8 }

def c3Store : MemStorage :=
  { songs := [("sX", c3Song)], identifications := [("iX", c3Ident)] }

def c3Ops : List StoreOp :=
  [StoreOp.createSong "sX" 7 { title := "Track", artist := "Band" },
   StoreOp.createIdentification "iX" 8
     { songId := some "sX", filename := "x.mp3", confidence := 88 }]

theorem C3_witness :
    wfStore c3Store = true ∧ "iY" ∉ identIdsCreated c3Ops ∧
    ((c3Store.getIdentificationWithSong "iZ" = none ↔
       (mapGet c3Store.identifications "iZ" = none ∨
        (∃ ident, mapGet c3Store.identifications "iZ" = some ident ∧
           ident.songId = none) ∨
        (∃ ident sid, mapGet c3Store.identifications "iZ" = some ident ∧
           ident.songId = some sid ∧ c3Store.getSong sid = none))) ∧
     (runOps emptyStorage c3Ops).getIdentificationWithSong "iY" = none) :=
  ⟨by decide, by decide, C3_thm c3Store "iZ" (by decide) c3Ops "iY" (by decide)⟩

/-! ## C6: rejected uploads -/

/-- C6: an upload that exceeds the 10 MiB limit or whose MIME type does not
start with `audio/` is answered 400 by the middleware, `identifyMusic` is
never invoked (fourth component `false`), and the store is returned
untouched. -/
theorem C6_thm (s : MemStorage) (f : UploadedFile) (env : HandlerEnv)
    (h : FILE_SIZE_LIMIT < f.size ∨ fileFilterAccepts f.mimetype = false) :
    uploadPipeline s f env =
      (Response.badRequest "Only audio files are allowed", s, false, false) := by
  have hacc : multerAccepts f = false := by
    rcases h with h | h
    · simp [multerAccepts, Nat.not_le.mpr h]
    · simp [multerAccepts, h]
  simp [uploadPipeline, hacc]

def c6File : UploadedFile :=
  { path := "uploads/9a1b", originalname := "notes.txt", mimetype := "text/plain", size := 2048 }

def c6Env : HandlerEnv :=
  { readResult := Except.ok []
    identifyResult := IdentifyOutcome.error rapidErrorMessage
    songUUID := "c6-song-uuid", identUUID := "c6-ident-uuid", now := 0 }

theorem C6_witness :
    (FILE_SIZE_LIMIT < c6File.size ∨ fileFilterAccepts c6File.mimetype = false) ∧
    uploadPipeline emptyStorage c6File c6Env =
      (Response.badRequest "Only audio files are allowed", emptyStorage, false, false) :=
  ⟨Or.inr (by decide),
   C6_thm emptyStorage c6File c6Env (Or.inr (by decide))⟩

/-! ## C7: the NormalizedTrack → Song field mapping -/

/-- C7: the handler's `songData` mapping, over tracks whose set fields are
non-empty strings (as provider-produced tracks are): missing title/artist
default to "Unknown Title"/"Unknown Artist", `year` is the year component of
`release_date` when present and null when absent, and `spotifyUrl` is
`https://open.spotify.com/track/` ++ the Spotify track id when present and
null otherwise. -/
theorem C7_thm (m : MusicData)
    (ht : m.title ≠ some "") (ha : m.artistName ≠ some "")
    (hrd : m.release_date ≠ some "") (hsp : m.spotifyTrackId ≠ some "") :
    (mkSongData m).title = m.title.getD "Unknown Title" ∧
    (mkSongData m).artist = m.artistName.getD "Unknown Artist" ∧
    (mkSongData m).year = m.release_date.map releaseDateYear ∧
    (mkSongData m).spotifyUrl =
      m.spotifyTrackId.map (fun i => "https://open.spotify.com/track/" ++ i) := by
  refine ⟨?_, ?_, ?_, ?_⟩
  · cases hv : m.title with
    | none => simp [mkSongData, jsOrStr, hv]
    | some t =>
      have hte : ¬ t = "" := fun hh => ht (by rw [hv, hh])
      simp [mkSongData, jsOrStr, hv, hte]
  · cases hv : m.artistName with
    | none => simp [mkSongData, jsOrStr, hv]
    | some a =>
      have hae : ¬ a = "" := fun hh => ha (by rw [hv, hh])
      simp [mkSongData, jsOrStr, hv, hae]
  · cases hv : m.release_date with
    | none => simp [mkSongData, jsTruthyStr, hv]
    | some rd =>
      have hre : ¬ rd = "" := fun hh => hrd (by rw [hv, hh])
      simp [mkSongData, jsTruthyStr, hv, hre]
  · cases hv : m.spotifyTrackId with
    | none => simp [mkSongData, jsTruthyStr, hv]
    | some i =>
      have hie : ¬ i = "" := fun hh => hsp (by rw [hv, hh])
      simp [mkSongData, jsTruthyStr, hv, hie]

def c7Track : MusicData :=
  { title := some "Blinding Lights", artistName := some "The Weeknd"
    albumName := some "After Hours", release_date := some "2019-11-29"
    score := some 95, spotifyTrackId := some "0VjIjW4GlULA1OgON3MzNs" }

theorem C7_witness :
    c7Track.title ≠ some "" ∧ c7Track.artistName ≠ some "" ∧
    c7Track.release_date ≠ some "" ∧ c7Track.spotifyTrackId ≠ some "" ∧
    ((mkSongData c7Track).title = c7Track.title.getD "Unknown Title" ∧
     (mkSongData c7Track).artist = c7Track.artistName.getD "Unknown Artist" ∧
     (mkSongData c7Track).year = c7Track.release_date.map releaseDateYear ∧
     (mkSongData c7Track).spotifyUrl =
       c7Track.spotifyTrackId.map (fun i => "https://open.spotify.com/track/" ++ i)) ∧
    (mkSongData c7Track).year = some 2019 ∧
    (mkSongData c7Track).spotifyUrl =
      some "https://open.spotify.com/track/0VjIjW4GlULA1OgON3MzNs" :=
  ⟨by decide, by decide, by decide, by decide,
   C7_thm c7Track (by decide) (by decide) (by decide) (by decide),
   by decide, by decide⟩

/-! ## C8: create/get round-trip -/

/-- C8: round-trip through the store, following the endpoint's order (song
first, then the identification referencing it).  The created song is
retrievable via `getSong` under its id with all caller-supplied fields equal
to the input and the server-assigned `id`/`createdAt` set to the generated
values; the created identification is retrievable unchanged via
`getIdentificationWithSong` joined with that song (its song exists by
construction; `sid ≠ ""` because generated UUIDs are non-empty). -/
theorem C8_thm (s : MemStorage) (sid tid : String) (n1 n2 : Nat)
    (insS : InsertSong) (fn : String) (conf : Nat) (hsid : sid ≠ "") :
    let p1 := s.createSong sid n1 insS
    let p2 := p1.2.createIdentification tid n2
      { songId := some p1.1.id, filename := fn, confidence := conf }
    p1.2.getSong p1.1.id = some p1.1 ∧
    p1.1.toInsertSong = insS ∧ p1.1.id = sid ∧ p1.1.createdAt = n1 ∧
    p2.2.getIdentificationWithSong p2.1.id =
      some { toIdentification := p2.1, song := p1.1 } ∧
    p2.1.toInsertIdentification =
      { songId := some p1.1.id, filename := fn, confidence := conf } ∧
    p2.1.id = tid ∧ p2.1.createdAt = n2 := by
  intro p1 p2
  have hsong : p1.2.getSong p1.1.id = some p1.1 := by
    simpa [MemStorage.createSong, MemStorage.getSong] using
      mapGet_mapSet_self s.songs sid _
  refine ⟨hsong, rfl, rfl, rfl, ?_, rfl, rfl, rfl⟩
  have hident : mapGet p2.2.identifications p2.1.id = some p2.1 := by
    simpa [MemStorage.createIdentification] using
      mapGet_mapSet_self p1.2.identifications tid _
  rw [getIdentificationWithSong_eq_joinSong hident]
  have hsongId : p2.1.songId = some sid := rfl
  rw [joinSong_of_songId_some hsongId hsid]
  have hsong2 : p2.2.getSong sid = some p1.1 := by
    simpa [MemStorage.createIdentification, MemStorage.getSong] using hsong
  rw [hsong2, Option.map_some']

def c8Ins : InsertSong := { title := "Roundtrip", artist := "Tester", album := some "LP" }

theorem C8_witness :
    ("s-81" : String) ≠ "" ∧
    (let p1 := emptyStorage.createSong "s-81" 11 c8Ins
     let p2 := p1.2.createIdentification "i-82" 12
       { songId := some p1.1.id, filename := "rt.mp3", confidence := 77 }
     p1.2.getSong p1.1.id = some p1.1 ∧
     p1.1.toInsertSong = c8Ins ∧ p1.1.id = "s-81" ∧ p1.1.createdAt = 11 ∧
     p2.2.getIdentificationWithSong p2.1.id =
       some { toIdentification := p2.1, song := p1.1 } ∧
     p2.1.toInsertIdentification =
       { songId := some p1.1.id, filename := "rt.mp3", confidence := 77 } ∧
     p2.1.id = "i-82" ∧ p2.1.createdAt = 12) :=
  ⟨by decide, C8_thm emptyStorage "s-81" "i-82" 11 12 c8Ins "rt.mp3" 77 (by decide)⟩

/-! ## C10: the `score || 95` confidence fallback -/

/-- C10: the identification the handler persists on a successful
identification records `musicData.score || 95`: when the provider score is
`0`, `undefined` or `null` (all falsy), the recorded confidence is 95, not 0.
Stated on the handler: after a success-path invocation, the identification
stored under the generated id carries confidence 95. -/
theorem C10_thm (s : MemStorage) (f : UploadedFile) (env : HandlerEnv)
    (m : MusicData) (buf : List Nat)
    (hread : env.readResult = Except.ok buf)
    (hid : env.identifyResult = IdentifyOutcome.success m)
    (hscore : m.score = none ∨ m.score = some 0) :
    mapGet (handleIdentify (some f) env s).2.1.identifications env.identUUID =
      some { songId := some env.songUUID, filename := f.originalname
             confidence := 95, id := env.identUUID, createdAt := env.now } := by
  obtain ⟨rr, ir, su, iu, n⟩ := env
  simp only at hread hid
  subst hread hid
  have hconf : jsOrNat m.score 95 = 95 := by
    rcases hscore with hs | hs <;> simp [jsOrNat, hs]
  simp only [handleIdentify, MemStorage.createSong, MemStorage.createIdentification,
    successInsertIdentification, hconf]
  exact mapGet_mapSet_self _ _ _

def c10File : UploadedFile :=
  { path := "uploads/77aa", originalname := "mystery.mp3", mimetype := "audio/mpeg", size := 4096 }

def c10Music : MusicData :=
  { title := some "Quiet Track", artistName := some "Nobody"
    albumName := none, release_date := none, score := none, spotifyTrackId := none }

def c10Env : HandlerEnv :=
  { readResult := Except.ok []
    identifyResult := IdentifyOutcome.success c10Music
    songUUID := "s-77", identUUID := "i-77", now := 42 }

theorem C10_witness :
    c10Env.readResult = Except.ok [] ∧
    c10Env.identifyResult = IdentifyOutcome.success c10Music ∧
    c10Music.score = none ∧
    mapGet (handleIdentify (some c10File) c10Env emptyStorage).2.1.identifications "i-77" =
      some { songId := some "s-77", filename := "mystery.mp3"
             confidence := 95, id := "i-77", createdAt := 42 } :=
  ⟨rfl, rfl, rfl,
   C10_thm emptyStorage c10File c10Env c10Music [] rfl rfl (Or.inl rfl)⟩
